import Mathlib

/-!
Shallow embedding of the green-agentic-rag summarization pipeline
(backend/src/agents/models.py, backend/src/agents/triage.py,
backend/src/core/orchestrator.py, backend/src/core/scheduler.py)
and proofs about the spec claims concerning it.

External capabilities (HuggingFace pipelines, Ollama, Groq, the NLI
checker) are modelled as oracle parameters; a call that raises an
exception is an oracle returning none.  Carbon costs and progress
values are modelled as exact rationals.
-/

namespace GreenAgentic

/-- Semantic type of a chunk (triage.py: Literal field of Chunk). -/
inductive ChunkType where
  | Title
  | Text
  | Table
  | List
  | Other
deriving DecidableEq, Repr

/-- triage.Chunk: the standardized smart-chunk record (triage.py). -/
structure Chunk where
  id : String
  document_id : String
  chunk_index : Nat
  type : ChunkType
  content : String
deriving DecidableEq, Repr

instance : Inhabited Chunk :=
  ⟨{ id := "", document_id := "", chunk_index := 0, type := ChunkType.Other, content := "" }⟩

/-- state["model_usage_chars"]: cumulative characters sent to each tier
(orchestrator.py start_job initializes all three to 0). -/
structure ModelUsage where
  light : Nat
  medium : Nat
  large : Nat
deriving DecidableEq, Repr

/-- models.run_light_summarizer truncates its input to 1024 characters
before invoking the pipeline. -/
def truncate_light (text : String) : String :=
  if text.length > 1024 then text.take 1024 else text

/-- Python text.split(): split on whitespace, dropping empty pieces
(used for the dynamic min_length in run_light_summarizer). -/
def word_count (s : String) : Nat :=
  ((s.split Char.isWhitespace).filter (fun w => w ≠ "")).length

/-- models.run_light_summarizer.  The pipeline is an oracle taking
(truncated text, max_length, min_length); none models the call raising.
Returns the summary (or a sentinel) and the updated usage counters:
the light counter is advanced by the truncated length only after a
successful pipeline call. -/
def run_light_summarizer (pipe : Option (String → Nat → Nat → Option String))
    (text : String) (usage : ModelUsage) : String × ModelUsage :=
  match pipe with
  | none => ("Error: Light summarizer not loaded.", usage)
  | some p =>
    let textT := truncate_light text
    let calculated_min := min 30 (max 5 (word_count textT / 2))
    match p textT 150 calculated_min with
    | some summary_text =>
      (summary_text, { usage with light := usage.light + textT.length })
    | none => ("Summary generation failed.", usage)

/-- The chat prompt built by models.run_medium_summarizer. -/
def medium_prompt (text : String) : String :=
  "You are an expert summarization model. \n" ++
  "Provide a concise, factual summary of the following text.\n" ++
  "Do not add any preamble, introduction, or conversational fluff.\n\nTEXT:\n" ++
  text ++ "\n\nSUMMARY:\n"

/-- models.run_medium_summarizer.  The Ollama client is an oracle on the
prompt; none models client.chat raising.  The medium counter is advanced
by the full input length only after a successful chat call. -/
def run_medium_summarizer (client : Option (String → Option String))
    (text : String) (usage : ModelUsage) : String × ModelUsage :=
  match client with
  | none => ("Error: Medium summarizer not loaded.", usage)
  | some chat =>
    match chat (medium_prompt text) with
    | some content =>
      (content, { usage with medium := usage.medium + text.length })
    | none => ("Summary generation failed.", usage)

/-- Outcome of one Groq chat.completions.create attempt in
models.run_large_model_compile: success, a 429 rate-limit exception, or
any other exception (carrying str(e)). -/
inductive LargeAttempt where
  | ok (response_text : String)
  | rateLimit
  | err (e : String)

/-- The retry loop of models.run_large_model_compile: up to the given
number of remaining attempts (max_retries = 3), indexed by attempt
number.  Success advances the large counter by the input length and
returns; a rate limit sleeps and retries; any other error returns a
sentinel embedding the exception text; exhausting the attempts returns
the rate-limit sentinel. -/
def large_attempt_loop (oracle : Nat → LargeAttempt) (text_of_summaries : String)
    (usage : ModelUsage) : Nat → Nat → String × ModelUsage
  | _, 0 => ("Summary failed due to Rate Limits.", usage)
  | attempt, remaining + 1 =>
    match oracle attempt with
    | LargeAttempt.ok response_text =>
      (response_text, { usage with large := usage.large + text_of_summaries.length })
    | LargeAttempt.rateLimit =>
      large_attempt_loop oracle text_of_summaries usage (attempt + 1) remaining
    | LargeAttempt.err e =>
      ("Final summary generation failed: " ++ e, usage)

/-- models.run_large_model_compile: if the Groq client is not in
models_registry it delegates the whole input to run_medium_summarizer;
otherwise it runs the bounded retry loop (max_retries = 3). -/
def run_large_model_compile (client : Option (Nat → LargeAttempt))
    (medium_client : Option (String → Option String))
    (text_of_summaries : String) (usage : ModelUsage) : String × ModelUsage :=
  match client with
  | none => run_medium_summarizer medium_client text_of_summaries usage
  | some oracle => large_attempt_loop oracle text_of_summaries usage 0 3

/-- The NLI input format of models.run_accuracy_check. -/
def nli_input (original_text summary : String) : String :=
  "[PREMISE] " ++ original_text ++ " [HYPOTHESIS] " ++ summary

/-- models.run_accuracy_check: if the checker tokenizer or model is
missing, returns true (fail-open); the classifier is an oracle giving
the argmax class index (none models an exception, also fail-open to
true); otherwise accurate iff the predicted class is 2 (entailment). -/
def run_accuracy_check (tokenizer_available model_available : Bool)
    (predict : String → Option Nat) (original_text summary : String) : Bool :=
  if !tokenizer_available || !model_available then
    true
  else
    match predict (nli_input original_text summary) with
    | none => true
    | some prediction => prediction == 2

/-! ## scheduler.py: the carbon cost model -/

/-- CARBON_COSTS_PER_CHUNK_GCO2E["triage_hi_res"] = 0.05 -/
def triage_hi_res_cost : ℚ := 5 / 100

/-- CARBON_COSTS_PER_CHUNK_GCO2E["summarize_light"] = 0.005 -/
def summarize_light_cost : ℚ := 5 / 1000

/-- CARBON_COSTS_PER_CHUNK_GCO2E["summarize_medium"] = 0.05 -/
def summarize_medium_cost : ℚ := 5 / 100

/-- CARBON_COSTS_PER_CHUNK_GCO2E["summarize_large"] = 0.5 -/
def summarize_large_cost : ℚ := 5 / 10

/-- CARBON_COSTS_PER_CHUNK_GCO2E["check_accuracy"] = 0.005 -/
def check_accuracy_cost : ℚ := 5 / 1000

/-- scheduler.BASELINE_COST_PER_CHUNK: triage_hi_res + summarize_large. -/
def BASELINE_COST_PER_CHUNK : ℚ := triage_hi_res_cost + summarize_large_cost

/-- settings.LOCAL_GRID_INTENSITY (config.py), returned by
get_grid_carbon_intensity in the no-API-key simulation. -/
def LOCAL_GRID_INTENSITY : ℚ := 700

/-- The dictionary returned by scheduler.calculate_carbon_savings
(the human-readable message field, a formatted rendering of
carbon_saved_grams and efficiency_percent, is presentation-only and
not modelled). -/
structure CarbonReport where
  carbon_saved_grams : ℚ
  baseline_cost_gco2e : ℚ
  actual_cost_gco2e : ℚ
  efficiency_percent : ℚ
  local_grid_gco2_kwh : ℚ
  compute_location : String
  total_chunks : Nat
  chunks_escalated : Nat
deriving DecidableEq, Repr

/-- scheduler.calculate_carbon_savings, as a function of the two state
fields it reads (state["total_chunks"], state["chunks_escalated"]). -/
def calculate_carbon_savings (total_chunks chunks_escalated : Nat) : CarbonReport :=
  let local_grid_gco2_kwh := LOCAL_GRID_INTENSITY
  let baseline_cost_gco2e : ℚ := BASELINE_COST_PER_CHUNK * total_chunks
  let cost_triage_and_check : ℚ := (triage_hi_res_cost + check_accuracy_cost) * total_chunks
  let cost_light_summarization : ℚ := (total_chunks : ℚ) * summarize_light_cost
  let cost_medium_summarization : ℚ := (chunks_escalated : ℚ) * summarize_medium_cost
  let cost_final_compile : ℚ := summarize_large_cost * 1
  let actual_cost_gco2e :=
    cost_triage_and_check + cost_light_summarization + cost_medium_summarization +
      cost_final_compile
  let carbon_saved_grams := baseline_cost_gco2e - actual_cost_gco2e
  let efficiency_percent : ℚ :=
    if baseline_cost_gco2e > 0 then carbon_saved_grams / baseline_cost_gco2e * 100 else 0
  { carbon_saved_grams := carbon_saved_grams
    baseline_cost_gco2e := baseline_cost_gco2e
    actual_cost_gco2e := actual_cost_gco2e
    efficiency_percent := efficiency_percent
    local_grid_gco2_kwh := local_grid_gco2_kwh
    compute_location := "local_hybrid"
    total_chunks := total_chunks
    chunks_escalated := chunks_escalated }

/-! ## orchestrator.py: the pipeline nodes

The ThreadPoolExecutor fan-out of map_summarize_chunks and
map_escalate_chunks submits one future per chunk and collects results
with as_completed, appending each result to the output list as its
worker finishes.  A worker completion schedule is therefore modelled as
the list of chunk indices in completion order (a permutation of
List.range chunks.length); the collected output is the per-chunk result
listed in that order.  The summarizer tiers are abstracted as functions
Chunk → String (the per-chunk result of run_light_summarizer /
run_medium_summarizer for that chunk's content). -/

/-- The summaries list collected by orchestrator.map_summarize_chunks:
one light-tier result per chunk, appended in worker completion order. -/
def map_summarize_output (light : Chunk → String) (chunks : List Chunk)
    (order : List Nat) : List String :=
  order.map (fun j => light (chunks.getD j default))

/-- Result of one orchestrator.check_accuracy pass: the failed chunks,
the passed summaries (both in index order, as the python loop appends
them), and the chunks_escalated value it writes (the number of failed
chunks of this pass). -/
structure GateResult where
  failed_chunks : List Chunk
  summaries : List String
  chunks_escalated : Nat
deriving DecidableEq, Repr

/-- orchestrator.check_accuracy: zips chunks with the current summaries,
runs the verifier on each (chunk.content, summary) pair, collects the
chunks of rejected pairs and the summaries of accepted pairs, and
overwrites chunks_escalated with this pass's failure count. -/
def check_accuracy (verify : String → String → Bool) (chunks : List Chunk)
    (summaries : List String) : GateResult :=
  let pairs := chunks.zip summaries
  let failed_chunks := (pairs.filter (fun p => !verify p.1.content p.2)).map Prod.fst
  let passed_summaries := (pairs.filter (fun p => verify p.1.content p.2)).map Prod.snd
  { failed_chunks := failed_chunks
    summaries := passed_summaries
    chunks_escalated := failed_chunks.length }

/-- orchestrator.should_rerun: escalate iff failed_chunks is nonempty. -/
def should_rerun (failed_chunks : List Chunk) : String :=
  if failed_chunks ≠ [] then "escalate" else "compile"

/-- orchestrator.map_escalate_chunks: appends one medium-tier result per
failed chunk (in worker completion order over the failed list) to the
surviving summaries, and clears failed_chunks. -/
def map_escalate_chunks (medium : Chunk → String) (summaries : List String)
    (failed_chunks : List Chunk) (order : List Nat) : List String × List Chunk :=
  (summaries ++ order.map (fun j => medium (failed_chunks.getD j default)), [])

/-- The gate/escalate feedback loop of the compiled graph
(check_accuracy → should_rerun → map_escalate_chunks → check_accuracy).
summariesInto k is the summaries list entering gate pass k: pass 0 sees
the first map output; pass k+1 sees the surviving summaries of pass k
with the escalated results appended.  verify is indexed by the gate pass
(round) so any sequence of accept/reject responses can be expressed;
escOrders k is the worker completion schedule of escalation pass k. -/
def summariesInto (verify : Nat → String → String → Bool) (light medium : Chunk → String)
    (chunks : List Chunk) (mapOrder : List Nat) (escOrders : Nat → List Nat) :
    Nat → List String
  | 0 => map_summarize_output light chunks mapOrder
  | k + 1 =>
    let g := check_accuracy (verify k) chunks
      (summariesInto verify light medium chunks mapOrder escOrders k)
    (map_escalate_chunks medium g.summaries g.failed_chunks (escOrders k)).1

/-- The gate result of pass k of the loop. -/
def gateAt (verify : Nat → String → String → Bool) (light medium : Chunk → String)
    (chunks : List Chunk) (mapOrder : List Nat) (escOrders : Nat → List Nat)
    (k : Nat) : GateResult :=
  check_accuracy (verify k) chunks
    (summariesInto verify light medium chunks mapOrder escOrders k)

/-- The graph execution of the gate/escalate loop, stopped when a gate
pass rejects nothing (should_rerun routes to compile).  Returns the gate
result the compile path receives, or none if the loop is still running
after the given number of gate passes. -/
def runLoop (verify : Nat → String → String → Bool) (light medium : Chunk → String)
    (chunks : List Chunk) (mapOrder : List Nat) (escOrders : Nat → List Nat)
    (maxPasses : Nat) : Option GateResult :=
  (List.range maxPasses).findSome? (fun k =>
    let g := gateAt verify light medium chunks mapOrder escOrders k
    if g.failed_chunks = [] then some g else none)

/-! ### Progress writes

Each node of the standard-mode graph writes JOB_STATUSES[job_id]
["progress"] at fixed points; the trace of those writes over a run is a
list of rationals.  Per node (orchestrator.py):
start_job 5.0; triage_document 15.0; map_summarize_chunks 25.0 then
25 + (i+1)/total * 30 after each completed future; check_accuracy 55.0
then 55 + (i+1)/total * 15 after each zipped pair; map_escalate_chunks
75.0; reduce_compile_summary 85.0; calculate_carbon 100.0
(store_for_rag writes only the message). -/

/-- Progress writes of map_summarize_chunks for n chunks. -/
def map_progress_writes (n : Nat) : List ℚ :=
  25 :: (List.range n).map (fun (i : Nat) => 25 + (((i : ℚ) + 1) / (n : ℚ)) * 30)

/-- Progress writes of one check_accuracy pass: pairs zipped pairs,
total the total_chunks divisor. -/
def gate_progress_writes (pairs total : Nat) : List ℚ :=
  55 :: (List.range pairs).map (fun (i : Nat) => 55 + (((i : ℚ) + 1) / (total : ℚ)) * 15)

/-- Progress writes of a standard-mode run with n chunks whose gate
passes always zip n pairs (the summaries length stays n, see
c6_summaries_length_invariant) and that takes the escalation edge
rounds times: start, triage, map, first gate, then one 75-write plus a
gate pass per escalation round, then reduce and the final carbon node. -/
def run_progress_trace (n rounds : Nat) : List ℚ :=
  [5, 15] ++ (map_progress_writes n ++ (gate_progress_writes n n ++
    ((List.replicate rounds ((75 : ℚ) :: gate_progress_writes n n)).flatten ++ [85, 100])))

/-- orchestrator.reduce_compile_summary: joins the summaries with blank
lines and hands the combined text to run_large_model_compile. -/
def reduce_compile_summary (client : Option (Nat → LargeAttempt))
    (medium_client : Option (String → Option String))
    (summaries : List String) (usage : ModelUsage) : String × ModelUsage :=
  run_large_model_compile client medium_client (String.intercalate "\n\n" summaries) usage

/-- Sample chunks used by concrete counterexamples and witnesses. -/
def sampleChunk (i : Nat) (content : String) : Chunk :=
  { id := "doc_chunk_" ++ toString i
    document_id := "doc"
    chunk_index := i
    type := ChunkType.Text
    content := content }

/-! ## Claims -/

/-- C5: the cost model is a deterministic pure function of
(totalUnits, escalatedCount): baseline = (parse + large-tier unit cost)
times N, actual = (parse + verify cost) times N + light-tier cost times
N + medium-tier cost times E + one fixed large-tier compile cost, and
savings = baseline minus actual; two calls on the same pair agree. -/
theorem c5_cost_model_formula (N E : Nat) :
    (calculate_carbon_savings N E).baseline_cost_gco2e
        = (triage_hi_res_cost + summarize_large_cost) * N ∧
    (calculate_carbon_savings N E).actual_cost_gco2e
        = (triage_hi_res_cost + check_accuracy_cost) * N + summarize_light_cost * N
            + summarize_medium_cost * E + summarize_large_cost ∧
    (calculate_carbon_savings N E).carbon_saved_grams
        = (calculate_carbon_savings N E).baseline_cost_gco2e
            - (calculate_carbon_savings N E).actual_cost_gco2e ∧
    calculate_carbon_savings N E = calculate_carbon_savings N E := by
  refine ⟨?_, ?_, ?_, rfl⟩
  · show BASELINE_COST_PER_CHUNK * (N : ℚ) = _
    rw [BASELINE_COST_PER_CHUNK]
  · show (triage_hi_res_cost + check_accuracy_cost) * (N : ℚ) + (N : ℚ) * summarize_light_cost
        + (E : ℚ) * summarize_medium_cost + summarize_large_cost * 1 = _
    ring
  · rfl

/-- C10: when the large-tier Groq client is not configured, the
final-compile step returns exactly the medium-tier summarizer output on
the joined summaries (no large-tier failure sentinel, no exception). -/
theorem c10_large_fallback_delegates_to_medium
    (medium_client : Option (String → Option String))
    (summaries : List String) (usage : ModelUsage) :
    reduce_compile_summary none medium_client summaries usage
      = run_medium_summarizer medium_client (String.intercalate "\n\n" summaries) usage := rfl

/-- C8 counterexample: a light-tier attempt whose underlying pipeline
call fails returns the sentinel but leaves the light usage counter at 0,
even though the attempted (truncated) input has 5 characters; the claim
says the counter is still incremented by the attempted size. -/
theorem c8_counterexample_usage_not_counted_on_failure :
    run_light_summarizer (some (fun _ _ _ => none)) "hello"
        { light := 0, medium := 0, large := 0 }
      = ("Summary generation failed.", { light := 0, medium := 0, large := 0 }) ∧
    (truncate_light "hello").length = 5 := by
  refine ⟨rfl, rfl⟩

/-- C8 amended: a single-unit summarization call never raises; an absent
capability yields the not-loaded sentinel and a failing capability call
yields the failed sentinel, both leaving the usage counters unchanged;
only a successful call returns the capability output and advances the
per-tier counter by the attempted input size (truncated for the light
tier). -/
theorem c8_summarizer_isolation (p : String → Nat → Nat → Option String)
    (c : String → Option String) (text : String) (u : ModelUsage) :
    run_light_summarizer none text u = ("Error: Light summarizer not loaded.", u) ∧
    run_medium_summarizer none text u = ("Error: Medium summarizer not loaded.", u) ∧
    run_light_summarizer (some p) text u
      = (match p (truncate_light text) 150
            (min 30 (max 5 (word_count (truncate_light text) / 2))) with
         | some r => (r, { u with light := u.light + (truncate_light text).length })
         | none => ("Summary generation failed.", u)) ∧
    run_medium_summarizer (some c) text u
      = (match c (medium_prompt text) with
         | some r => (r, { u with medium := u.medium + text.length })
         | none => ("Summary generation failed.", u)) := by
  refine ⟨rfl, rfl, rfl, rfl⟩

/-- C1: map_summarize_chunks appends each result in worker completion
order, so with completion order [1, 0] (a permutation of the two chunk
indices) the collected summaries are not positionally aligned with the
chunks: the output differs from the index-aligned map. -/
theorem c1_output_order_follows_completion_order :
    ([1, 0] : List Nat).Perm (List.range 2) ∧
    map_summarize_output Chunk.content [sampleChunk 0 "a", sampleChunk 1 "b"] [1, 0]
        = ["b", "a"] ∧
    [sampleChunk 0 "a", sampleChunk 1 "b"].map Chunk.content = ["a", "b"] ∧
    map_summarize_output Chunk.content [sampleChunk 0 "a", sampleChunk 1 "b"] [1, 0]
        ≠ [sampleChunk 0 "a", sampleChunk 1 "b"].map Chunk.content := by
  refine ⟨by decide, rfl, rfl, by decide⟩

/-- C7: if the accuracy checker tokenizer or model is unavailable, or
the classifier raises on every input, run_accuracy_check returns true on
every pair, so a check_accuracy pass built on it rejects nothing: no
chunk fails, chunks_escalated is 0 and the conditional edge routes to
compile. -/
theorem c7_verifier_fail_open (tok mdl : Bool) (predict : String → Option Nat)
    (h : tok = false ∨ mdl = false ∨ ∀ s, predict s = none)
    (o s : String) (chunks : List Chunk) (summaries : List String) :
    run_accuracy_check tok mdl predict o s = true ∧
    (check_accuracy (run_accuracy_check tok mdl predict) chunks summaries).failed_chunks
        = [] ∧
    (check_accuracy (run_accuracy_check tok mdl predict) chunks summaries).chunks_escalated
        = 0 ∧
    should_rerun
        (check_accuracy (run_accuracy_check tok mdl predict) chunks summaries).failed_chunks
      = "compile" := by
  have hall : ∀ a b : String, run_accuracy_check tok mdl predict a b = true := by
    intro a b
    rcases h with h | h | h
    · simp [run_accuracy_check, h]
    · simp [run_accuracy_check, h]
    · cases htok : tok <;> cases hmdl : mdl <;> simp [run_accuracy_check, h]
  have hfail :
      (check_accuracy (run_accuracy_check tok mdl predict) chunks summaries).failed_chunks
        = [] := by
    simp only [check_accuracy]
    rw [List.filter_eq_nil_iff.mpr]
    · simp
    · intro a _
      simp [hall]
  refine ⟨hall o s, hfail, ?_, ?_⟩
  · show (check_accuracy (run_accuracy_check tok mdl predict) chunks
        summaries).failed_chunks.length = 0
    rw [hfail]
    rfl
  · simp [should_rerun, hfail]

/-- C7 witness: instantiating the fail-open theorem with a missing
tokenizer and a singleton gate pass. -/
theorem c7_verifier_fail_open_witness :
    run_accuracy_check false true (fun _ => some 0) "orig" "summ" = true ∧
    (check_accuracy (run_accuracy_check false true (fun _ => some 0))
        [sampleChunk 0 "orig"] ["summ"]).failed_chunks = [] ∧
    (check_accuracy (run_accuracy_check false true (fun _ => some 0))
        [sampleChunk 0 "orig"] ["summ"]).chunks_escalated = 0 ∧
    should_rerun
        (check_accuracy (run_accuracy_check false true (fun _ => some 0))
          [sampleChunk 0 "orig"] ["summ"]).failed_chunks = "compile" :=
  c7_verifier_fail_open false true (fun _ => some 0) (Or.inl rfl) "orig" "summ"
    [sampleChunk 0 "orig"] ["summ"]

/-- C9: for escalatedCount at most totalUnits, the efficiency percentage
is 0 exactly when the baseline cost is nonpositive; in particular any
run with at least one unit has a positive baseline and a nonzero
efficiency. -/
theorem c9_efficiency_zero_iff_baseline_nonpos (N E : Nat) (h : E ≤ N) :
    (calculate_carbon_savings N E).efficiency_percent = 0 ↔
      (calculate_carbon_savings N E).baseline_cost_gco2e ≤ 0 := by
  have hbval : (calculate_carbon_savings N E).baseline_cost_gco2e
      = BASELINE_COST_PER_CHUNK * (N : ℚ) := rfl
  have heval : (calculate_carbon_savings N E).efficiency_percent
      = if BASELINE_COST_PER_CHUNK * (N : ℚ) > 0 then
          (calculate_carbon_savings N E).carbon_saved_grams
            / (BASELINE_COST_PER_CHUNK * (N : ℚ)) * 100
        else 0 := rfl
  have hb20 : BASELINE_COST_PER_CHUNK = (11 : ℚ) / 20 := by
    norm_num [BASELINE_COST_PER_CHUNK, triage_hi_res_cost, summarize_large_cost]
  have hsval : (calculate_carbon_savings N E).carbon_saved_grams
      = (49 * (N : ℚ) - 5 * (E : ℚ) - 50) / 100 := by
    show BASELINE_COST_PER_CHUNK * (N : ℚ)
        - ((triage_hi_res_cost + check_accuracy_cost) * (N : ℚ)
            + (N : ℚ) * summarize_light_cost + (E : ℚ) * summarize_medium_cost
            + summarize_large_cost * 1) = _
    rw [hb20]
    norm_num [triage_hi_res_cost, check_accuracy_cost, summarize_light_cost,
      summarize_medium_cost, summarize_large_cost]
    ring
  rcases Nat.eq_zero_or_pos N with hN | hN
  · subst hN
    constructor
    · intro _
      rw [hbval]
      norm_num
    · intro _
      rw [heval]
      norm_num
  · have hNQ : (0 : ℚ) < (N : ℚ) := by exact_mod_cast hN
    have hbpos : (0 : ℚ) < BASELINE_COST_PER_CHUNK * (N : ℚ) := by
      rw [hb20]
      exact mul_pos (by norm_num) hNQ
    have hZ : ¬ (49 * (N : ℤ) - 5 * (E : ℤ) - 50 = 0) := by omega
    have hsne : (49 * (N : ℚ) - 5 * (E : ℚ) - 50) ≠ 0 := by
      intro hq
      exact hZ (by exact_mod_cast hq)
    constructor
    · intro heff
      exfalso
      rw [heval, if_pos hbpos, hsval] at heff
      rcases mul_eq_zero.mp heff with h1 | h1
      · rcases div_eq_zero_iff.mp h1 with h2 | h2
        · rcases div_eq_zero_iff.mp h2 with h3 | h3
          · exact absurd h3 hsne
          · norm_num at h3
        · exact absurd h2 (ne_of_gt hbpos)
      · norm_num at h1
    · intro hle
      rw [hbval] at hle
      exact absurd hle (not_le.mpr hbpos)

/-- C9 witness: one unit, no escalations. -/
theorem c9_efficiency_zero_iff_baseline_nonpos_witness :
    0 ≤ 1 ∧
    ((calculate_carbon_savings 1 0).efficiency_percent = 0 ↔
      (calculate_carbon_savings 1 0).baseline_cost_gco2e ≤ 0) :=
  ⟨by decide, c9_efficiency_zero_iff_baseline_nonpos 1 0 (by decide)⟩

/-- One check_accuracy pass splits the zipped pairs into passed
summaries and failed chunks: the two lengths add up to the number of
zipped pairs. -/
theorem check_accuracy_partition (verify : String → String → Bool)
    (chunks : List Chunk) (summaries : List String) :
    (check_accuracy verify chunks summaries).summaries.length
      + (check_accuracy verify chunks summaries).failed_chunks.length
      = (chunks.zip summaries).length := by
  have h := List.length_eq_length_filter_add (l := chunks.zip summaries)
    (fun p => verify p.1.content p.2)
  simp only [check_accuracy, List.length_map]
  omega

/-- C2: the code has no escalation-round ceiling.  With a verifier that
rejects every pair, a single chunk fails every gate pass (so the
conditional edge re-enters map_escalate_chunks after every pass, and the
chunk is escalated once per pass, without bound), and the loop never
reaches the compile route no matter how many gate passes it is allowed:
runLoop returns none for every pass budget. -/
theorem c2_escalation_loop_unbounded (light medium : Chunk → String) (c : Chunk)
    (k maxPasses : Nat) :
    (gateAt (fun _ _ _ => false) light medium [c] [0] (fun _ => [0]) k).failed_chunks
        = [c] ∧
    runLoop (fun _ _ _ => false) light medium [c] [0] (fun _ => [0]) maxPasses
        = none := by
  have hsum : ∀ m, ∃ s,
      summariesInto (fun _ _ _ => false) light medium [c] [0] (fun _ => [0]) m = [s] := by
    intro m
    induction m with
    | zero => exact ⟨light c, rfl⟩
    | succ m ih =>
      obtain ⟨s, hs⟩ := ih
      refine ⟨medium c, ?_⟩
      simp [summariesInto, hs, check_accuracy, map_escalate_chunks]
  have hgate : ∀ m,
      (gateAt (fun _ _ _ => false) light medium [c] [0] (fun _ => [0]) m).failed_chunks
        = [c] := by
    intro m
    obtain ⟨s, hs⟩ := hsum m
    simp [gateAt, hs, check_accuracy]
  refine ⟨hgate k, ?_⟩
  rw [runLoop]
  rw [List.findSome?_eq_none_iff]
  intro m _
  simp [hgate m]

/-- The five chunks of the end-to-end escalation scenario. -/
def c4_chunks : List Chunk :=
  [sampleChunk 0 "c0", sampleChunk 1 "c1", sampleChunk 2 "c2",
   sampleChunk 3 "c3", sampleChunk 4 "c4"]

/-- Scenario verifier: on the first gate pass it rejects exactly the
pairs whose original text is chunk 1 or chunk 3, and accepts everything
on every later pass. -/
def c4_verify : Nat → String → String → Bool := fun k orig _ =>
  if k = 0 then !(orig == "c1" || orig == "c3") else true

/-- Scenario light tier: a distinguishable per-chunk result. -/
def c4_light : Chunk → String := fun c => "L" ++ c.content

/-- Scenario medium tier: a distinguishable per-chunk result. -/
def c4_medium : Chunk → String := fun c => "M" ++ c.content

/-- C4 counterexample: in the 5-unit scenario where the verifier rejects
indices 1 and 3 on the first pass and accepts everything afterwards, the
loop exits after the second gate pass with chunks_escalated equal to 0,
not 2: check_accuracy overwrites the counter with the current pass's
failure count, so the recorded escalated-count is not 2 as claimed. -/
theorem c4_counterexample_final_count_zero :
    runLoop c4_verify c4_light c4_medium c4_chunks [0, 1, 2, 3, 4] (fun _ => [0, 1]) 5
      = some { failed_chunks := []
               summaries := ["Lc0", "Lc2", "Lc4", "Mc1", "Mc3"]
               chunks_escalated := 0 } ∧
    (0 : Nat) ≠ 2 := by
  refine ⟨by decide, by decide⟩

/-- C4 amended: the first gate pass rejects exactly chunks 1 and 3 and
records 2 escalations, the escalation node processes exactly those two
chunks, but the second gate pass re-invokes the verifier instead of
force-accepting; when that pass accepts everything the loop exits with
chunks_escalated overwritten to 0, and the cost report computed from the
final state therefore records 0 escalated chunks. -/
theorem c4_scenario_recorded_count :
    (gateAt c4_verify c4_light c4_medium c4_chunks [0, 1, 2, 3, 4] (fun _ => [0, 1])
        0).failed_chunks = [sampleChunk 1 "c1", sampleChunk 3 "c3"] ∧
    (gateAt c4_verify c4_light c4_medium c4_chunks [0, 1, 2, 3, 4] (fun _ => [0, 1])
        0).chunks_escalated = 2 ∧
    (summariesInto c4_verify c4_light c4_medium c4_chunks [0, 1, 2, 3, 4] (fun _ => [0, 1])
        1) = ["Lc0", "Lc2", "Lc4", "Mc1", "Mc3"] ∧
    (runLoop c4_verify c4_light c4_medium c4_chunks [0, 1, 2, 3, 4] (fun _ => [0, 1])
        5).map GateResult.chunks_escalated = some 0 ∧
    (calculate_carbon_savings 5 0).chunks_escalated = 0 := by
  refine ⟨by decide, by decide, by decide, by decide, rfl⟩

/-- C6: for every chunk list, every per-round pattern of verifier
rejections and every worker completion schedule (a permutation of the
pending indices at each stage), the summaries list has length N right
after the first map pass (pass 0) and right after every escalation pass
(pass k): the gate removes rejected entries in between, but each
escalation pass appends exactly one medium result per rejected chunk. -/
theorem c6_summaries_length_invariant (verify : Nat → String → String → Bool)
    (light medium : Chunk → String) (chunks : List Chunk) (mapOrder : List Nat)
    (escOrders : Nat → List Nat) (k : Nat)
    (hmap : mapOrder.Perm (List.range chunks.length))
    (hesc : ∀ j, j < k → (escOrders j).Perm (List.range
        (gateAt verify light medium chunks mapOrder escOrders j).failed_chunks.length)) :
    (summariesInto verify light medium chunks mapOrder escOrders k).length
      = chunks.length := by
  induction k with
  | zero =>
    have := hmap.length_eq
    simpa [summariesInto, map_summarize_output] using this
  | succ k ih =>
    have ihl := ih (fun j hj => hesc j (Nat.lt_succ_of_lt hj))
    have hpart := check_accuracy_partition (verify k) chunks
      (summariesInto verify light medium chunks mapOrder escOrders k)
    have hlen : (escOrders k).length
        = (gateAt verify light medium chunks mapOrder escOrders k).failed_chunks.length := by
      have := (hesc k (Nat.lt_succ_self k)).length_eq
      simpa using this
    have hzip : (chunks.zip
        (summariesInto verify light medium chunks mapOrder escOrders k)).length
          = chunks.length := by
      rw [List.length_zip, ihl, Nat.min_self]
    show ((map_escalate_chunks medium
        (gateAt verify light medium chunks mapOrder escOrders k).summaries
        (gateAt verify light medium chunks mapOrder escOrders k).failed_chunks
        (escOrders k)).1).length = chunks.length
    simp only [map_escalate_chunks, List.length_append, List.length_map]
    rw [hlen]
    simp only [gateAt]
    omega

/-- C6 witness: one chunk, an always-rejecting verifier, identity
completion schedules, checked one escalation pass in. -/
theorem c6_summaries_length_invariant_witness :
    ([0] : List Nat).Perm (List.range ([sampleChunk 0 "a"] : List Chunk).length) ∧
    (∀ j, j < 1 → (([0] : List Nat)).Perm (List.range
        (gateAt (fun _ _ _ => false) Chunk.content Chunk.content [sampleChunk 0 "a"]
          [0] (fun _ => [0]) j).failed_chunks.length)) ∧
    (summariesInto (fun _ _ _ => false) Chunk.content Chunk.content [sampleChunk 0 "a"]
        [0] (fun _ => [0]) 1).length = 1 :=
  ⟨by decide, by decide,
    c6_summaries_length_invariant (fun _ _ _ => false) Chunk.content Chunk.content
      [sampleChunk 0 "a"] [0] (fun _ => [0]) 1 (by decide) (by decide)⟩

/-- C3 counterexample: on a run with one chunk that takes the
escalation edge once, the progress writes are
[5, 15, 25, 55, 55, 70, 75, 55, 70, 85, 100]: map_escalate_chunks
writes 75 and the re-entered check_accuracy then writes 55, so the
sequence of progress writes is not monotonically non-decreasing. -/
theorem c3_counterexample_progress_decreases :
    ¬ List.Chain' (fun a b : ℚ => a ≤ b) (run_progress_trace 1 1) := by
  intro h
  have heq : run_progress_trace 1 1
      = [5, 15, 25, 55, 55, 70, 75, 55, 70, 85, 100] := by
    norm_num [run_progress_trace, map_progress_writes, gate_progress_writes,
      List.replicate, List.range_succ]
  rw [heq] at h
  simp only [List.chain'_cons, List.chain'_singleton, and_true] at h
  norm_num at h

/-- A progress ramp a, a + (1/n) c, ..., a + (n/n) c is non-decreasing
when the band width c is nonnegative. -/
theorem ramp_chain (a c : ℚ) (hc : 0 ≤ c) (n : Nat) :
    List.Chain' (fun x y : ℚ => x ≤ y)
      (a :: (List.range n).map (fun (i : Nat) => a + (((i : ℚ) + 1) / (n : ℚ)) * c)) := by
  cases n with
  | zero => simp
  | succ m =>
    rw [List.chain'_cons']
    constructor
    · intro y hy
      simp only [List.range_succ_eq_map, List.map_cons, List.head?_cons,
        Option.mem_some_iff] at hy
      subst hy
      exact le_add_of_nonneg_right (by positivity)
    · rw [List.chain'_map, List.chain'_range_succ]
      intro i him
      have hden : (0 : ℚ) < ((m + 1 : Nat) : ℚ) := by positivity
      gcongr
      linarith

/-- The last write of a ramp over n units is a + c (the full band). -/
theorem ramp_last (a c : ℚ) (n : Nat) (hn : n ≠ 0) :
    (a :: (List.range n).map
        (fun (i : Nat) => a + (((i : ℚ) + 1) / (n : ℚ)) * c)).getLast? = some (a + c) := by
  cases n with
  | zero => exact absurd rfl hn
  | succ m =>
    have hd : ((m + 1 : Nat) : ℚ) ≠ 0 := by positivity
    have h1 : ((m : ℚ) + 1) / ((m + 1 : Nat) : ℚ) = 1 := by
      rw [div_eq_one_iff_eq hd]
      push_cast
      ring
    rw [List.range_succ, List.map_append, List.map_cons, List.map_nil, ← List.cons_append,
      List.getLast?_concat, h1]
    norm_num

/-- C3 amended: on every run that never takes the escalation edge (the
verifier accepts all pairs on the first gate pass), the sequence of
progress writes from job start to the terminal 100 write is
monotonically non-decreasing. -/
theorem c3_progress_monotone_without_escalation (n : Nat) (hn : 0 < n) :
    List.Chain' (fun x y : ℚ => x ≤ y) (run_progress_trace n 0) := by
  have hmp := ramp_chain 25 30 (by norm_num) n
  have hgp := ramp_chain 55 15 (by norm_num) n
  have hmpl := ramp_last 25 30 n hn.ne'
  have hgpl := ramp_last 55 15 n hn.ne'
  norm_num at hmpl hgpl
  have h85 : List.Chain' (fun x y : ℚ => x ≤ y) [85, 100] :=
    List.chain'_pair.mpr (by norm_num)
  have hgp100 : List.Chain' (fun x y : ℚ => x ≤ y)
      (gate_progress_writes n n ++ [85, 100]) := by
    rw [List.chain'_append]
    refine ⟨?_, h85, ?_⟩
    · simpa [gate_progress_writes] using hgp
    · intro x hx y hy
      rw [gate_progress_writes] at hx
      rw [hgpl] at hx
      simp only [Option.mem_some_iff] at hx
      simp only [List.head?_cons, Option.mem_some_iff] at hy
      subst hx
      subst hy
      norm_num
  have hmprest : List.Chain' (fun x y : ℚ => x ≤ y)
      (map_progress_writes n ++ (gate_progress_writes n n ++ [85, 100])) := by
    rw [List.chain'_append]
    refine ⟨?_, hgp100, ?_⟩
    · simpa [map_progress_writes] using hmp
    · intro x hx y hy
      rw [map_progress_writes] at hx
      rw [hmpl] at hx
      simp only [Option.mem_some_iff] at hx
      rw [gate_progress_writes, List.cons_append, List.head?_cons,
        Option.mem_some_iff] at hy
      subst hx
      subst hy
      norm_num
  rw [run_progress_trace, List.replicate_zero, List.flatten_nil, List.nil_append]
  show List.Chain' (fun x y : ℚ => x ≤ y)
    ([5, 15] ++ (map_progress_writes n ++ (gate_progress_writes n n ++ [85, 100])))
  rw [List.chain'_append]
  refine ⟨List.chain'_pair.mpr (by norm_num), hmprest, ?_⟩
  intro x hx y hy
  simp only [List.getLast?_cons_cons, List.getLast?_singleton, Option.mem_some_iff] at hx
  rw [map_progress_writes, List.cons_append, List.head?_cons, Option.mem_some_iff] at hy
  subst hx
  subst hy
  norm_num

/-- C3 amended witness: a one-chunk run with no escalation round. -/
theorem c3_progress_monotone_witness :
    0 < 1 ∧ List.Chain' (fun x y : ℚ => x ≤ y) (run_progress_trace 1 0) :=
  ⟨by decide, c3_progress_monotone_without_escalation 1 (by decide)⟩

end GreenAgentic
